import Mathlib

/-!
Shallow embedding of the state and derivation module of the ThriveCare
therapy-coordination dashboard (src/app/src/app/page.tsx) together with
theorems settling the frozen claims about it.

Modelling conventions:
  - JS numbers are modelled as exact rationals (`ℚ`); `Math.round` is half-up
    rounding `⌊q + 1/2⌋` (matching JS on all finite inputs, including the
    negative half cases). IEEE NaN, which arises in one component from a
    literal `0/0`, is modelled by `Option` (`none` = NaN), and only there.
  - ISO date strings are compared only through `new Date(...)` order, so
    dates are modelled as integer instants (epoch milliseconds).
  - Identifier synthesis (`createClientId`) and the evaluation clock
    (`new Date()`) are opaque capabilities: the handlers take the fresh
    identifier and the current instant as explicit parameters.
  - React `useState` cells become fields of an explicit `AppState`; the
    constant profile lists, read but never written by the handlers, are
    carried in the same record.
-/

namespace ThriveCare

/-- The three-tier goal status (`TherapyStatus` in src/lib/types). -/
inductive TherapyStatus where
  | on_track
  | needs_support
  | at_risk
deriving DecidableEq, Repr

/-- A therapy goal of one child (entity `TherapyGoal`). -/
structure TherapyGoal where
  id : String
  category : String
  description : String
  baseline : ℚ
  current : ℚ
  target : ℚ
  status : TherapyStatus
deriving DecidableEq, Repr

/-- A logged therapy session (entity `TherapySession`). -/
structure TherapySession where
  id : String
  date : ℤ
  focus : String
  goalsWorkedOn : List String
  rating : ℤ
  notes : String
  therapistId : String
deriving DecidableEq, Repr

/-- A scheduled upcoming session of one child. -/
structure UpcomingSession where
  id : String
  childId : String
  date : ℤ
  focus : String
  location : String
  therapistId : String
deriving DecidableEq, Repr

/-- One child of the roster (entity `ChildProfile`). -/
structure ChildProfile where
  id : String
  name : String
  age : ℤ
  diagnosis : String
  avatarColor : String
  therapists : List String
  therapyGoals : List TherapyGoal
  sessionHistory : List TherapySession
  upcomingSessions : List UpcomingSession
deriving DecidableEq, Repr

/-- Therapist actor profile. -/
structure TherapistProfile where
  id : String
  name : String
  title : String
  childIds : List String
deriving DecidableEq, Repr

/-- Parent actor profile. -/
structure ParentProfile where
  id : String
  name : String
  contact : String
  childIds : List String
deriving DecidableEq, Repr

/-- Donor actor profile. -/
structure DonorProfile where
  id : String
  name : String
  contribution : ℚ
  lastUpdate : ℤ
  missions : List String
  childIds : List String
deriving DecidableEq, Repr

/-- A free-text family update (interface `FamilyUpdate`, page.tsx:51-55). -/
structure FamilyUpdate where
  id : String
  message : String
  date : ℤ
deriving DecidableEq, Repr

/-- The four roles of the dashboard (`RoleKey`, page.tsx:16). -/
inductive RoleKey where
  | center
  | therapist
  | parent
  | donor
deriving DecidableEq, Repr

/-- JS `Math.round`: round half toward positive infinity. -/
def mathRound (q : ℚ) : ℤ := ⌊q + 1/2⌋

/-- JS `String.prototype.trim`: drop whitespace from both ends. Stated on the
character list of the string so that it evaluates by structural recursion. -/
def jsTrim (s : String) : String :=
  String.mk (((s.data.dropWhile Char.isWhitespace).reverse.dropWhile
    Char.isWhitespace).reverse)

/-- The Goal Progress Engine classification of page.tsx:413-422
(`updateGoalStatus`): recompute `status` from the ratio `current / target`.
All other fields are kept. -/
def updateGoalStatus (goal : TherapyGoal) : TherapyGoal :=
  let ratio := goal.current / goal.target
  let status : TherapyStatus :=
    if ratio ≥ (0.8 : ℚ) then .on_track
    else if ratio ≥ (0.55 : ℚ) then .needs_support
    else .at_risk
  { goal with status := status }

/-- The three-tier ratio rule of the spec (section 4.1), stated on the ratio
alone, for comparison with the code path. -/
def statusForRatio (r : ℚ) : TherapyStatus :=
  if r ≥ (0.8 : ℚ) then .on_track
  else if r ≥ (0.55 : ℚ) then .needs_support
  else .at_risk

/-- The `reclassify(goal, newCurrent)` contract of the spec as the code
realizes it: the clamp `Math.min(goal.target, ...)` at page.tsx:465 followed by
`updateGoalStatus` at page.tsx:466. -/
def reclassify (goal : TherapyGoal) (newCurrent : ℚ) : TherapyGoal :=
  updateGoalStatus { goal with current := min goal.target newCurrent }

theorem updateGoalStatus_current (goal : TherapyGoal) :
    (updateGoalStatus goal).current = goal.current := rfl

theorem updateGoalStatus_target (goal : TherapyGoal) :
    (updateGoalStatus goal).target = goal.target := rfl

theorem updateGoalStatus_status (goal : TherapyGoal) :
    (updateGoalStatus goal).status = statusForRatio (goal.current / goal.target) := rfl

/-- C5: for every goal with positive target and every `newCurrent`,
`reclassify` replaces `current` by `min target newCurrent`, leaves every other
field of the goal unchanged, and recomputes `status` from the new ratio
`r = current / target` with `on_track` iff `r ≥ 0.80`, `needs_support` iff
`0.55 ≤ r < 0.80` and `at_risk` iff `r < 0.55` (both boundaries inclusive on
the higher tier). Determinism is inherent: `reclassify` is a pure function. -/
theorem reclassify_spec (goal : TherapyGoal) (newCurrent : ℚ)
    (htarget : 0 < goal.target) :
    (reclassify goal newCurrent).current = min goal.target newCurrent ∧
    (reclassify goal newCurrent).id = goal.id ∧
    (reclassify goal newCurrent).category = goal.category ∧
    (reclassify goal newCurrent).description = goal.description ∧
    (reclassify goal newCurrent).baseline = goal.baseline ∧
    (reclassify goal newCurrent).target = goal.target ∧
    (((reclassify goal newCurrent).status = .on_track ↔
        (0.8 : ℚ) ≤ min goal.target newCurrent / goal.target) ∧
     ((reclassify goal newCurrent).status = .needs_support ↔
        ((0.55 : ℚ) ≤ min goal.target newCurrent / goal.target ∧
          min goal.target newCurrent / goal.target < (0.8 : ℚ))) ∧
     ((reclassify goal newCurrent).status = .at_risk ↔
        min goal.target newCurrent / goal.target < (0.55 : ℚ))) := by
  unfold reclassify updateGoalStatus
  refine ⟨rfl, rfl, rfl, rfl, rfl, rfl, ?_⟩
  dsimp only
  constructor
  · split_ifs with h1 h2 <;> simp_all <;> linarith
  constructor
  · split_ifs with h1 h2 <;> simp_all <;> constructor <;> intro h <;> try linarith
  · split_ifs with h1 h2 <;> simp_all <;> linarith

/-- Payload of `handleAddSession` (page.tsx:424-440). The `date` field is the
ISO date of the form, as an instant. -/
structure SessionInput where
  childId : String
  focus : String
  notes : String
  rating : ℤ
  date : ℤ
  goalIds : List String
  therapistId : String
deriving DecidableEq, Repr

/-- The whole mutable state of the module: the `useState` cells of `Home`
(page.tsx:238-254) plus the constant profile lists (page.tsx:256-258), which
the handlers read but never write. `familyUpdates` models the
`Record<string, FamilyUpdate[]>` as a total function defaulting to the empty
list (`prev[childId] ?? []`). -/
structure AppState where
  children : List ChildProfile
  selectedRole : RoleKey
  selectedTherapistId : String
  selectedParentId : String
  selectedDonorId : String
  selectedChildId : String
  familyUpdates : String → List FamilyUpdate
  therapists : List TherapistProfile
  parents : List ParentProfile
  donors : List DonorProfile

/-- Source page.tsx:261-262: first id of `ids` that names a child of the roster
(`ids.find(childId => children.some(child => child.id === childId))`). -/
def findFirstExistingChildId (children : List ChildProfile) (ids : List String) :
    Option String :=
  ids.find? (fun childId => children.any (fun child => child.id == childId))

/-- Source page.tsx:264-267: keep `candidateId` when it is truthy (JS: a non-empty
string) and names a child of the roster, else fall back to the first child of
the roster (empty string when the roster is empty). -/
def ensureChildSelection (children : List ChildProfile) (candidateId : Option String) :
    String :=
  match candidateId with
  | some cid =>
      if cid != "" && children.any (fun child => child.id == cid) then cid
      else ((children.head?).map ChildProfile.id).getD ""
  | none => ((children.head?).map ChildProfile.id).getD ""

/-- The fallback therapist of the role-switch handler (page.tsx:273-275):
the active therapist if it still exists in the profile list, else the first
profile. -/
def fallbackTherapistFor (s : AppState) : Option TherapistProfile :=
  (s.therapists.find? (fun profile => profile.id == s.selectedTherapistId)).orElse
    (fun _ => s.therapists.head?)

/-- The fallback parent of the role-switch handler (page.tsx:285-286). -/
def fallbackParentFor (s : AppState) : Option ParentProfile :=
  (s.parents.find? (fun profile => profile.id == s.selectedParentId)).orElse
    (fun _ => s.parents.head?)

/-- The fallback donor of the role-switch handler (page.tsx:296-297). -/
def fallbackDonorFor (s : AppState) : Option DonorProfile :=
  (s.donors.find? (fun profile => profile.id == s.selectedDonorId)).orElse
    (fun _ => s.donors.head?)

/-- Source page.tsx:269-307, `handleRoleSelect`: switch the active role, resolve a
fallback actor for the new role and re-anchor the active child. -/
def handleRoleSelect (s : AppState) (role : RoleKey) : AppState :=
  let s1 : AppState := { s with selectedRole := role }
  match role with
  | .therapist =>
      match fallbackTherapistFor s1 with
      | some fallbackTherapist =>
          let childId := findFirstExistingChildId s1.children fallbackTherapist.childIds
          { s1 with selectedTherapistId := fallbackTherapist.id,
                    selectedChildId := ensureChildSelection s1.children childId }
      | none => s1
  | .parent =>
      match fallbackParentFor s1 with
      | some fallbackParent =>
          let childId := findFirstExistingChildId s1.children fallbackParent.childIds
          { s1 with selectedParentId := fallbackParent.id,
                    selectedChildId := ensureChildSelection s1.children childId }
      | none => s1
  | .donor =>
      match fallbackDonorFor s1 with
      | some fallbackDonor =>
          let childId := findFirstExistingChildId s1.children fallbackDonor.childIds
          { s1 with selectedDonorId := fallbackDonor.id,
                    selectedChildId := ensureChildSelection s1.children childId }
      | none => s1
  | .center =>
      { s1 with selectedChildId := ensureChildSelection s1.children (some s1.selectedChildId) }

/-- Source page.tsx:309-316, `handleTherapistChange`: switch the active therapist and
re-anchor the active child. -/
def handleTherapistChange (s : AppState) (id : String) : AppState :=
  let s1 : AppState := { s with selectedTherapistId := id }
  match s1.therapists.find? (fun profile => profile.id == id) with
  | some therapist =>
      { s1 with selectedChildId :=
          ensureChildSelection s1.children (findFirstExistingChildId s1.children therapist.childIds) }
  | none => s1

/-- Source page.tsx:318-325, `handleParentChange`. -/
def handleParentChange (s : AppState) (id : String) : AppState :=
  let s1 : AppState := { s with selectedParentId := id }
  match s1.parents.find? (fun profile => profile.id == id) with
  | some parent =>
      { s1 with selectedChildId :=
          ensureChildSelection s1.children (findFirstExistingChildId s1.children parent.childIds) }
  | none => s1

/-- Source page.tsx:327-334, `handleDonorChange`. -/
def handleDonorChange (s : AppState) (id : String) : AppState :=
  let s1 : AppState := { s with selectedDonorId := id }
  match s1.donors.find? (fun profile => profile.id == id) with
  | some donor =>
      { s1 with selectedChildId :=
          ensureChildSelection s1.children (findFirstExistingChildId s1.children donor.childIds) }
  | none => s1

/-- Source page.tsx:336: the child of the roster named by the active child id. -/
def selectedChild (s : AppState) : Option ChildProfile :=
  s.children.find? (fun child => child.id == s.selectedChildId)

/-- Source page.tsx:343-360, `filteredChildren`: the children visible under the
current role. The optional chaining `selectedParent?.childIds.includes(...)`
is false when the actor id resolves to no profile. -/
def filteredChildren (s : AppState) : List ChildProfile :=
  match s.selectedRole with
  | .therapist =>
      s.children.filter (fun child => child.therapists.contains s.selectedTherapistId)
  | .parent =>
      s.children.filter (fun child =>
        match s.parents.find? (fun profile => profile.id == s.selectedParentId) with
        | some parent => parent.childIds.contains child.id
        | none => false)
  | .donor =>
      s.children.filter (fun child =>
        match s.donors.find? (fun profile => profile.id == s.selectedDonorId) with
        | some donor => donor.childIds.contains child.id
        | none => false)
  | .center => s.children

/-- Source page.tsx:362-363: `selectedChild ?? filteredChildren[0] ?? children[0] ?? null`. -/
def resolvedChild (s : AppState) : Option ChildProfile :=
  (selectedChild s).orElse
    (fun _ => ((filteredChildren s).head?).orElse (fun _ => s.children.head?))

/-- Milliseconds of one day, the unit of `setDate(getDate() - 7)`. -/
def msPerDay : ℤ := 86400000

/-- Source page.tsx:365-371, `thisWeekSessions`: sessions across all children dated
at or after seven days before the evaluation instant `now`. -/
def thisWeekSessions (children : List ChildProfile) (now : ℤ) : ℕ :=
  let weekAgo := now - 7 * msPerDay
  ((children.flatMap (fun child => child.sessionHistory)).filter
    (fun session => decide (weekAgo ≤ session.date))).length

/-- Source page.tsx:395-411, `handleAddFamilyUpdate`: a blank message (after
trimming) is a no-op, otherwise a fresh update is prepended to the entry of
`childId` in the update mapping. `newId` and `now` stand for
`createClientId()` and `new Date().toISOString()`. -/
def handleAddFamilyUpdate (s : AppState) (childId message : String)
    (newId : String) (now : ℤ) : AppState :=
  if jsTrim message == "" then s
  else
    let newEntry : FamilyUpdate := { id := newId, message := jsTrim message, date := now }
    { s with familyUpdates := fun key =>
        if key == childId then newEntry :: s.familyUpdates childId
        else s.familyUpdates key }

/-- Source page.tsx:424-476, `handleAddSession`: a blank focus (after trimming) is a
no-op; otherwise a fresh `TherapySession` is built and the roster is mapped,
updating only children whose id matches: their addressed goals advance by
`Math.round(rating / 5 * 8)` clamped at `target` and are reclassified, and the
new session is prepended to their history. `newId` stands for
`createClientId()`. -/
def handleAddSession (s : AppState) (input : SessionInput) (newId : String) :
    AppState :=
  if jsTrim input.focus == "" then s
  else
    let session : TherapySession :=
      { id := newId, date := input.date, focus := jsTrim input.focus,
        goalsWorkedOn := input.goalIds, rating := input.rating,
        notes := if jsTrim input.notes == "" then "No additional notes recorded."
                 else jsTrim input.notes,
        therapistId := input.therapistId }
    { s with children := s.children.map (fun child =>
        if child.id != input.childId then child
        else
          let updatedGoals := child.therapyGoals.map (fun goal =>
            if !(input.goalIds.contains goal.id) then goal
            else
              let increment : ℤ := mathRound ((input.rating : ℚ) / 5 * 8)
              let nextCurrent := min goal.target (goal.current + (increment : ℚ))
              updateGoalStatus { goal with current := nextCurrent })
          { child with therapyGoals := updatedGoals,
                       sessionHistory := session :: child.sessionHistory }) }

/-- The submit path of `TherapistLogForm` (page.tsx:798-814): an empty
selected goal list returns before `onSubmit` (= `handleAddSession`) is
invoked; otherwise the payload is handed to `handleAddSession`. -/
def therapistLogFormSubmit (s : AppState) (input : SessionInput) (newId : String) :
    AppState :=
  if input.goalIds.isEmpty then s else handleAddSession s input newId

/-- The events the module reacts to (section 4 of the spec): role switch,
actor switch per role, direct child pick, and the two mutations. Fresh
identifiers and the clock are part of the event. -/
inductive Event where
  | roleSelect (role : RoleKey)
  | therapistChange (id : String)
  | parentChange (id : String)
  | donorChange (id : String)
  | childPick (id : String)
  | addSession (input : SessionInput) (newId : String)
  | addFamilyUpdate (childId message : String) (newId : String) (now : ℤ)

/-- One step of the module: dispatch an event to its handler. A direct child
pick sets the active child id unconditionally (page.tsx:534). -/
def step (e : Event) (s : AppState) : AppState :=
  match e with
  | .roleSelect role => handleRoleSelect s role
  | .therapistChange id => handleTherapistChange s id
  | .parentChange id => handleParentChange s id
  | .donorChange id => handleDonorChange s id
  | .childPick id => { s with selectedChildId := id }
  | .addSession input newId => handleAddSession s input newId
  | .addFamilyUpdate childId message newId now =>
      handleAddFamilyUpdate s childId message newId now

/-- JS addition on numbers that may be NaN (`none` models NaN; NaN is
absorbing). -/
def jsAdd (a b : Option ℚ) : Option ℚ :=
  match a, b with
  | some x, some y => some (x + y)
  | _, _ => none

/-- The per-child mean goal progress computed inside the reduce of
`DonorImpactPanel` (page.tsx:962-964):
`child.therapyGoals.reduce((gSum, goal) => gSum + goal.current, 0) /
 child.therapyGoals.length`. When the child has no goals this is the IEEE
division `0 / 0 = NaN`, modelled as `none`; for a non-empty goal list the
divisor is non-zero and the quotient is exact. -/
def childMeanProgress (child : ChildProfile) : Option ℚ :=
  if child.therapyGoals.length = 0 then none
  else some
    ((child.therapyGoals.map TherapyGoal.current).sum / (child.therapyGoals.length : ℚ))

/-- The supported children of a donor (page.tsx:955-957). -/
def supportedChildrenOf (donor : DonorProfile) (childProfiles : List ChildProfile) :
    List ChildProfile :=
  childProfiles.filter (fun child => donor.childIds.contains child.id)

/-- Source page.tsx:959-968, `averageProgress` of `DonorImpactPanel`: `0` when the
donor supports no children, else `Math.round` of the mean of the per-child
mean progresses. A NaN summand (a supported child with no goals) propagates
through the sum, the outer division and `Math.round`, so the result is NaN
(`none`). -/
def donorAverageProgress (donor : DonorProfile) (childProfiles : List ChildProfile) :
    Option ℤ :=
  let supportedChildren := supportedChildrenOf donor childProfiles
  if supportedChildren.length ≠ 0 then
    (supportedChildren.foldl (fun acc child => jsAdd acc (childMeanProgress child))
        (some 0)).map
      (fun total => mathRound (total / (supportedChildren.length : ℚ)))
  else some 0

/-- A concrete instantiation of `reclassify_spec`: the goal of the spec
example (`target = 100`, `current = 90`) reclassified at `newCurrent = 98`. -/
def goalExample : TherapyGoal :=
  { id := "g1", category := "Motor", description := "fine motor",
    baseline := 40, current := 90, target := 100, status := .on_track }

/-- Concrete goal fixtures for witnesses and counterexamples. `goalA` is the
worked example of the spec (section 8): `target = 100`, `current = 90`,
`on_track`; `goalB` sits in the `at_risk` band. -/
def goalA : TherapyGoal :=
  { id := "g1", category := "Speech", description := "articulation drill",
    baseline := 20, current := 90, target := 100, status := .on_track }

/-- Second concrete goal fixture, in the `at_risk` band (`40 / 100`). -/
def goalB : TherapyGoal :=
  { id := "g2", category := "Motor", description := "pencil grip",
    baseline := 10, current := 40, target := 100, status := .at_risk }

/-- Concrete child fixture with id `c5`, two goals and an empty history. -/
def childC5 : ChildProfile :=
  { id := "c5", name := "Ava", age := 6, diagnosis := "ASD", avatarColor := "blue",
    therapists := ["t1"], therapyGoals := [goalA, goalB],
    sessionHistory := [], upcomingSessions := [] }

/-- Concrete therapist fixture assigned to `c5`. -/
def therapist1 : TherapistProfile :=
  { id := "t1", name := "Tess", title := "SLP", childIds := ["c5"] }

/-- Concrete parent fixture whose child list is `[c2, c5]`, the scenario of
claim C7 (the roster of `baseState` lacks `c2`). -/
def parent1 : ParentProfile :=
  { id := "p1", name := "Pat", contact := "pat at example", childIds := ["c2", "c5"] }

/-- Concrete donor fixture supporting `c5`. -/
def donor1 : DonorProfile :=
  { id := "d1", name := "Dana", contribution := 1000, lastUpdate := 0,
    missions := [], childIds := ["c5"] }

/-- Base concrete state: one child `c5`, one profile of each actor kind, the
center role active, `c5` in focus, no family updates. -/
def baseState : AppState :=
  { children := [childC5], selectedRole := .center, selectedTherapistId := "t1",
    selectedParentId := "p1", selectedDonorId := "d1", selectedChildId := "c5",
    familyUpdates := fun _ => [], therapists := [therapist1],
    parents := [parent1], donors := [donor1] }

/-- Witness for C5 at the concrete goal `goalExample` and `newCurrent = 98`. -/
theorem reclassify_spec_witness :
    (0 : ℚ) < goalExample.target ∧
    ((reclassify goalExample 98).current = min goalExample.target 98 ∧
     (reclassify goalExample 98).id = goalExample.id ∧
     (reclassify goalExample 98).category = goalExample.category ∧
     (reclassify goalExample 98).description = goalExample.description ∧
     (reclassify goalExample 98).baseline = goalExample.baseline ∧
     (reclassify goalExample 98).target = goalExample.target ∧
     (((reclassify goalExample 98).status = .on_track ↔
         (0.8 : ℚ) ≤ min goalExample.target 98 / goalExample.target) ∧
      ((reclassify goalExample 98).status = .needs_support ↔
         ((0.55 : ℚ) ≤ min goalExample.target 98 / goalExample.target ∧
           min goalExample.target 98 / goalExample.target < (0.8 : ℚ))) ∧
      ((reclassify goalExample 98).status = .at_risk ↔
         min goalExample.target 98 / goalExample.target < (0.55 : ℚ)))) :=
  ⟨by norm_num [goalExample], reclassify_spec goalExample 98 (by norm_num [goalExample])⟩

/-- Session payload with an empty goal-id list and a non-blank focus, for the
C1 counterexample and amended claim. -/
def inputEmptyGoals : SessionInput :=
  { childId := "c5", focus := "Motor play", notes := "", rating := 4, date := 100,
    goalIds := [], therapistId := "t1" }

/-- C1 counterexample: called directly with an empty goal-id list and a
non-blank focus, `handleAddSession` (page.tsx:424-476) is not a no-op — the
roster changes and a session record is created (the history of `c5` grows
from 0 to 1 entries). The function has no guard on `goalIds`. -/
theorem handleAddSession_emptyGoalIds_creates_session :
    (handleAddSession baseState inputEmptyGoals "s-new").children ≠ baseState.children ∧
    ((handleAddSession baseState inputEmptyGoals "s-new").children.map
      (fun child => child.sessionHistory.length)) = [1] ∧
    (baseState.children.map (fun child => child.sessionHistory.length)) = [0] := by
  refine ⟨?_, by decide, by decide⟩
  decide

/-- C1 amended: the empty-goal-set rejection lives one level up, in the
submit handler of `TherapistLogForm` (page.tsx:800-802), which returns before
invoking `handleAddSession`; through that path an add-session request with an
empty goal-id list is a complete no-op, for every state and every payload. -/
theorem formSubmit_emptyGoalIds_noop (s : AppState) (input : SessionInput)
    (newId : String) (h : input.goalIds = []) :
    therapistLogFormSubmit s input newId = s := by
  unfold therapistLogFormSubmit
  simp [h]

/-- Witness for the amended C1 at the concrete state `baseState` and payload
`inputEmptyGoals`. -/
theorem formSubmit_emptyGoalIds_noop_witness :
    inputEmptyGoals.goalIds = [] ∧
    therapistLogFormSubmit baseState inputEmptyGoals "s-new" = baseState :=
  ⟨rfl, formSubmit_emptyGoalIds_noop baseState inputEmptyGoals "s-new" rfl⟩

/-- Concrete child fixture with no goals, supported by `donorOfGoalless`. -/
def childNoGoals : ChildProfile :=
  { id := "c9", name := "Kim", age := 5, diagnosis := "DLD", avatarColor := "teal",
    therapists := [], therapyGoals := [], sessionHistory := [], upcomingSessions := [] }

/-- Concrete donor fixture supporting only the goal-less child `c9`. -/
def donorOfGoalless : DonorProfile :=
  { id := "d2", name := "Drew", contribution := 500, lastUpdate := 0,
    missions := [], childIds := ["c9"] }

/-- C2: the code does not guard the per-child division by zero — for a donor
supporting one child that has no goals, the per-child mean is the IEEE
division `0 / 0 = NaN`, which propagates through the sum and `Math.round`, so
the donor average progress is NaN (`none`), not the well-defined integer `0`
the claim requires. The donor does support a child, so the zero-children
branch does not apply. -/
theorem donorAverageProgress_NaN_on_goalless_child :
    donorAverageProgress donorOfGoalless [childNoGoals] = none ∧
    supportedChildrenOf donorOfGoalless [childNoGoals] ≠ [] ∧
    donorAverageProgress donorOfGoalless [childNoGoals] ≠ some 0 := by
  refine ⟨by decide, by decide, by decide⟩

/-- Modelled from the claim C3 (spec section 4.2, derived view), for
comparison with `resolvedChild`: the active child is kept only when it is
present in the roster AND visible under the current role filter. -/
def claimResolvedChild (s : AppState) : Option ChildProfile :=
  match selectedChild s with
  | some child =>
      if (filteredChildren s).any (fun other => other.id == child.id) then some child
      else ((filteredChildren s).head?).orElse (fun _ => s.children.head?)
  | none => ((filteredChildren s).head?).orElse (fun _ => s.children.head?)

/-- Child fixture visible to therapist `t1`. -/
def childVisible : ChildProfile :=
  { id := "c1", name := "Ben", age := 7, diagnosis := "CP", avatarColor := "red",
    therapists := ["t1"], therapyGoals := [], sessionHistory := [], upcomingSessions := [] }

/-- Child fixture present in the roster but assigned to no therapist, hence
invisible under the therapist filter. -/
def childHidden : ChildProfile :=
  { id := "c2", name := "Cal", age := 8, diagnosis := "DCD", avatarColor := "green",
    therapists := [], therapyGoals := [], sessionHistory := [], upcomingSessions := [] }

/-- State whose active child (`c2`) is present in the roster but not visible
under the active therapist filter (`t1` sees only `c1`). -/
def hiddenSelectionState : AppState :=
  { children := [childVisible, childHidden], selectedRole := .therapist,
    selectedTherapistId := "t1", selectedParentId := "p1", selectedDonorId := "d1",
    selectedChildId := "c2", familyUpdates := fun _ => [],
    therapists := [therapist1], parents := [parent1], donors := [donor1] }

/-- C3 counterexample: the code keeps the active child whenever it is present
in the roster, without checking visibility under the role filter
(page.tsx:336 and 362-363): at `hiddenSelectionState` the code resolves the
hidden `c2` while the claimed rule resolves the first visible child `c1`. -/
theorem resolvedChild_ignores_role_filter :
    resolvedChild hiddenSelectionState = some childHidden ∧
    claimResolvedChild hiddenSelectionState = some childVisible ∧
    childHidden ≠ childVisible := by
  refine ⟨by decide, by decide, by decide⟩

/-- C3 amended: the resolved child is the active child whenever a child with
the active id is present in the roster — visibility under the role filter is
NOT required; when no such child exists it is the first child of the filtered
list, else the first child of the whole roster, else none (in particular none
for an empty roster). -/
theorem resolvedChild_amended (s : AppState) :
    ((∃ c ∈ s.children, c.id = s.selectedChildId) →
        ∃ c, resolvedChild s = some c ∧ c ∈ s.children ∧ c.id = s.selectedChildId) ∧
    ((¬ ∃ c ∈ s.children, c.id = s.selectedChildId) →
        resolvedChild s =
          ((filteredChildren s).head?).orElse (fun _ => s.children.head?)) ∧
    (s.children = [] → resolvedChild s = none) := by
  refine ⟨?_, ?_, ?_⟩
  · intro hex
    have hsome : (selectedChild s).isSome := by
      unfold selectedChild
      rw [List.find?_isSome]
      rcases hex with ⟨c, hc, hid⟩
      exact ⟨c, hc, by simp [hid]⟩
    rcases Option.isSome_iff_exists.mp hsome with ⟨c, hc⟩
    refine ⟨c, ?_, ?_, ?_⟩
    · unfold resolvedChild
      rw [hc]
      rfl
    · exact List.mem_of_find?_eq_some hc
    · have := List.find?_some hc
      simpa using this
  · intro hnone
    have hfail : selectedChild s = none := by
      unfold selectedChild
      rw [List.find?_eq_none]
      intro c hc
      simp only [beq_iff_eq]
      intro hid
      exact hnone ⟨c, hc, hid⟩
    unfold resolvedChild
    rw [hfail]
    rfl
  · intro hnil
    unfold resolvedChild selectedChild filteredChildren
    rw [hnil]
    cases s.selectedRole <;> rfl

/-- Witness for the amended C3 at `baseState`, whose active child `c5` is
present in the roster. -/
theorem resolvedChild_amended_witness :
    (∃ c ∈ baseState.children, c.id = baseState.selectedChildId) ∧
    ∃ c, resolvedChild baseState = some c ∧ c ∈ baseState.children ∧
      c.id = baseState.selectedChildId :=
  ⟨⟨childC5, by decide, by decide⟩,
    (resolvedChild_amended baseState).1 ⟨childC5, by decide, by decide⟩⟩

/-- The increment of claim C4: `round(rating / 5 * 8)` with half-up integer
rounding, as a rational. -/
def specIncrement (rating : ℤ) : ℚ := ((mathRound ((rating : ℚ) / 5 * 8)) : ℚ)

/-- Claim C4, per-goal effect: an addressed goal advances its `current` by
the increment, clamped at `target`; identity and the immutable fields are
kept. -/
def goalAdvancedSpec (rating : ℤ) (goal goalAfter : TherapyGoal) : Prop :=
  goalAfter.id = goal.id ∧ goalAfter.category = goal.category ∧
  goalAfter.description = goal.description ∧ goalAfter.baseline = goal.baseline ∧
  goalAfter.target = goal.target ∧
  goalAfter.current = min goal.target (goal.current + specIncrement rating)

/-- Claim C4, per-child effect of a valid add-session call: children of other
ids are untouched; the addressed child gets exactly the new session prepended
(history otherwise unchanged), its unaddressed goals kept, and its addressed
goals advanced. -/
def addSessionChildSpec (input : SessionInput) (session : TherapySession)
    (child childAfter : ChildProfile) : Prop :=
  (child.id ≠ input.childId → childAfter = child) ∧
  (child.id = input.childId →
    childAfter.sessionHistory = session :: child.sessionHistory ∧
    childAfter.upcomingSessions = child.upcomingSessions ∧
    childAfter.id = child.id ∧ childAfter.name = child.name ∧
    List.Forall₂ (fun goal goalAfter =>
      (goal.id ∈ input.goalIds → goalAdvancedSpec input.rating goal goalAfter) ∧
      (goal.id ∉ input.goalIds → goalAfter = goal))
      child.therapyGoals childAfter.therapyGoals)

/-- Claim C4, whole-roster conclusion: some session record carrying the input
data exists such that the roster after the call relates child-by-child, in
order, to the roster before it by `addSessionChildSpec` (a `Forall₂`, so the
two rosters also have equal length). -/
def addSessionRosterSpec (s : AppState) (input : SessionInput) (newId : String) :
    Prop :=
  ∃ session : TherapySession,
    session.goalsWorkedOn = input.goalIds ∧ session.rating = input.rating ∧
    session.date = input.date ∧ session.therapistId = input.therapistId ∧
    List.Forall₂ (addSessionChildSpec input session) s.children
      (step (.addSession input newId) s).children

theorem forall₂_map_self {α : Type} (R : α → α → Prop) (f : α → α) :
    ∀ (l : List α), (∀ x ∈ l, R x (f x)) → List.Forall₂ R l (l.map f) := by
  intro l
  induction l with
  | nil => intro _; exact List.Forall₂.nil
  | cons a t ih =>
      intro h
      exact List.Forall₂.cons (h a (by simp))
        (ih (fun x hx => h x (by simp [hx])))

/-- The session record `handleAddSession` constructs (page.tsx:444-452). -/
def builtSession (input : SessionInput) (newId : String) : TherapySession :=
  { id := newId, date := input.date, focus := jsTrim input.focus,
    goalsWorkedOn := input.goalIds, rating := input.rating,
    notes := if jsTrim input.notes == "" then "No additional notes recorded."
             else jsTrim input.notes,
    therapistId := input.therapistId }

/-- C4: for a non-blank focus, a rating in `1..5` and a non-empty goal-id
set, `handleAddSession` prepends exactly one new session record to the
addressed child (existing history entries kept in order), advances each
addressed goal by `round(rating / 5 * 8)` clamped at `target`, and leaves
unaddressed goals and every other child of the roster completely
unchanged. -/
theorem handleAddSession_valid_effect (s : AppState) (input : SessionInput)
    (newId : String) (hfocus : jsTrim input.focus ≠ "")
    (hrating : 1 ≤ input.rating ∧ input.rating ≤ 5) (hgoals : input.goalIds ≠ []) :
    addSessionRosterSpec s input newId := by
  have hguard : (jsTrim input.focus == "") = false := beq_eq_false_iff_ne.mpr hfocus
  unfold addSessionRosterSpec
  simp only [step]
  unfold handleAddSession
  rw [hguard]
  simp only [Bool.false_eq_true, if_false]
  refine ⟨builtSession input newId, rfl, rfl, rfl, rfl, ?_⟩
  apply forall₂_map_self
  intro child hchild
  constructor
  · intro hne
    have hbne : (child.id != input.childId) = true := bne_iff_ne.mpr hne
    simp only [hbne, if_true]
  · intro heq
    have hbne : (child.id != input.childId) = false := by simp [heq]
    simp only [hbne, Bool.false_eq_true, if_false]
    refine ⟨by first | trivial | rfl, by first | trivial | rfl,
      by first | trivial | rfl, by first | trivial | rfl, ?_⟩
    apply forall₂_map_self
    intro goal hgoal
    constructor
    · intro hmem
      have hcont : (input.goalIds.contains goal.id) = true := by simpa using hmem
      simp only [hcont, Bool.not_true, Bool.false_eq_true, if_false]
      exact ⟨rfl, rfl, rfl, rfl, rfl, rfl⟩
    · intro hmem
      have hcont : (input.goalIds.contains goal.id) = false := by simpa using hmem
      simp only [hcont, Bool.not_false, if_true]

/-- Valid session payload: rating 5 on goal `g1` of `c5`, the worked example
of the spec (increment 8, clamp at 100, new current 98). -/
def inputValid : SessionInput :=
  { childId := "c5", focus := "Articulation drill", notes := " ", rating := 5,
    date := 10, goalIds := ["g1"], therapistId := "t1" }

/-- Witness for C4 at `baseState` and `inputValid`. -/
theorem handleAddSession_valid_effect_witness :
    (jsTrim inputValid.focus ≠ "" ∧ (1 ≤ inputValid.rating ∧ inputValid.rating ≤ 5) ∧
      inputValid.goalIds ≠ []) ∧
    addSessionRosterSpec baseState inputValid "s-w4" :=
  ⟨⟨by decide, ⟨by decide, by decide⟩, by decide⟩,
    handleAddSession_valid_effect baseState inputValid "s-w4" (by decide)
      ⟨by decide, by decide⟩ (by decide)⟩

/-- The invariant of claim C6 for one goal: the stored `status` is exactly
what the three-tier rule computes from the stored ratio. -/
def goalStatusInvariant (goal : TherapyGoal) : Prop :=
  goal.status = statusForRatio (goal.current / goal.target)

/-- The invariant of claim C6 for a roster: every goal of every child
satisfies `goalStatusInvariant`. -/
def rosterInvariant (children : List ChildProfile) : Prop :=
  ∀ child ∈ children, ∀ goal ∈ child.therapyGoals, goalStatusInvariant goal

theorem goalStatusInvariant_updateGoalStatus (goal : TherapyGoal) :
    goalStatusInvariant (updateGoalStatus goal) := rfl

/-- C6: every operation of the module preserves the status invariant — if
every goal of every child classifies its stored ratio correctly before an
event, the same holds after it, for every event (role switch, actor switch,
child pick, add-session, add-family-update). Only `handleAddSession` touches
goals, and it reclassifies exactly the goals whose `current` it changes. -/
theorem rosterInvariant_preserved (e : Event) (s : AppState)
    (h : rosterInvariant s.children) : rosterInvariant (step e s).children := by
  cases e with
  | roleSelect role =>
      have hchildren : (step (.roleSelect role) s).children = s.children := by
        show (handleRoleSelect s role).children = s.children
        unfold handleRoleSelect
        cases role
        case center => rfl
        case therapist =>
          cases hft : fallbackTherapistFor { s with selectedRole := RoleKey.therapist } <;>
            simp [hft]
        case parent =>
          cases hfp : fallbackParentFor { s with selectedRole := RoleKey.parent } <;>
            simp [hfp]
        case donor =>
          cases hfd : fallbackDonorFor { s with selectedRole := RoleKey.donor } <;>
            simp [hfd]
      rw [hchildren]
      exact h
  | therapistChange actorId =>
      have hchildren : (step (.therapistChange actorId) s).children = s.children := by
        show (handleTherapistChange s actorId).children = s.children
        unfold handleTherapistChange
        cases hf : List.find? (fun profile => profile.id == actorId)
            ({ s with selectedTherapistId := actorId } : AppState).therapists <;>
          simp [hf]
      rw [hchildren]
      exact h
  | parentChange actorId =>
      have hchildren : (step (.parentChange actorId) s).children = s.children := by
        show (handleParentChange s actorId).children = s.children
        unfold handleParentChange
        cases hf : List.find? (fun profile => profile.id == actorId)
            ({ s with selectedParentId := actorId } : AppState).parents <;>
          simp [hf]
      rw [hchildren]
      exact h
  | donorChange actorId =>
      have hchildren : (step (.donorChange actorId) s).children = s.children := by
        show (handleDonorChange s actorId).children = s.children
        unfold handleDonorChange
        cases hf : List.find? (fun profile => profile.id == actorId)
            ({ s with selectedDonorId := actorId } : AppState).donors <;>
          simp [hf]
      rw [hchildren]
      exact h
  | childPick pickedId => exact h
  | addFamilyUpdate childId message newId now =>
      have hchildren :
          (step (.addFamilyUpdate childId message newId now) s).children = s.children := by
        show (handleAddFamilyUpdate s childId message newId now).children = s.children
        unfold handleAddFamilyUpdate
        by_cases hb : (jsTrim message == "") = true <;> simp [hb]
      rw [hchildren]
      exact h
  | addSession input newId =>
      show rosterInvariant (handleAddSession s input newId).children
      unfold handleAddSession
      by_cases hb : (jsTrim input.focus == "") = true
      · simp only [hb, if_true]
        exact h
      · simp only [hb, Bool.false_eq_true, if_false]
        intro childAfter hmem
        simp only [List.mem_map] at hmem
        rcases hmem with ⟨child, hchild, hmap⟩
        subst hmap
        by_cases hid : (child.id != input.childId) = true
        · simp only [hid, if_true]
          exact h child hchild
        · simp only [Bool.not_eq_true] at hid
          simp only [hid, Bool.false_eq_true, if_false]
          intro goalAfter hgmem
          simp only [List.mem_map] at hgmem
          rcases hgmem with ⟨goal, hgoal, hgmap⟩
          subst hgmap
          by_cases hcont : (input.goalIds.contains goal.id) = true
          · simp only [hcont, Bool.not_true, Bool.false_eq_true, if_false]
            exact goalStatusInvariant_updateGoalStatus _
          · simp only [Bool.not_eq_true] at hcont
            simp only [hcont, Bool.not_false, if_true]
            exact h child hchild goal hgoal

theorem baseState_invariant : rosterInvariant baseState.children := by
  intro child hchild goal hgoal
  simp only [baseState, List.mem_singleton] at hchild
  subst hchild
  simp only [childC5, List.mem_cons, List.not_mem_nil, or_false] at hgoal
  unfold goalStatusInvariant statusForRatio
  rcases hgoal with h | h <;> subst h
  · have h8 : goalA.current / goalA.target ≥ (0.8 : ℚ) := by norm_num [goalA]
    rw [if_pos h8]
    rfl
  · have h8 : ¬ (goalB.current / goalB.target ≥ (0.8 : ℚ)) := by norm_num [goalB]
    have h55 : ¬ (goalB.current / goalB.target ≥ (0.55 : ℚ)) := by norm_num [goalB]
    rw [if_neg h8, if_neg h55]
    rfl

/-- Witness for C6 at the invariant-satisfying state `baseState` and a
child-pick event. -/
theorem rosterInvariant_preserved_witness :
    rosterInvariant baseState.children ∧
    rosterInvariant (step (Event.childPick "c5") baseState).children :=
  ⟨baseState_invariant,
    rosterInvariant_preserved (Event.childPick "c5") baseState baseState_invariant⟩

theorem findFirstExisting_any (children : List ChildProfile) (ids : List String)
    (c : String) (h : findFirstExistingChildId children ids = some c) :
    children.any (fun child => child.id == c) = true := by
  unfold findFirstExistingChildId at h
  have hp := List.find?_some h
  exact hp

theorem ensureChildSelection_of_found (children : List ChildProfile) (c : String)
    (hany : children.any (fun child => child.id == c) = true)
    (hne : ∀ child ∈ children, child.id ≠ "") :
    ensureChildSelection children (some c) = c := by
  have hc : c ≠ "" := by
    rcases List.any_eq_true.mp hany with ⟨child, hmem, hbeq⟩
    have hid : child.id = c := by simpa using hbeq
    exact hid ▸ hne child hmem
  have hb : (c != "") = true := bne_iff_ne.mpr hc
  simp [ensureChildSelection, hany, hb]

/-- C7: switching to a non-center role whose resolved fallback actor exists,
or switching the active actor within a non-center role, sets the active child
id to the first id in the child-id list of that actor that names a child of
the current roster (whenever such an id exists). Child ids of the roster are
assumed non-empty strings, as every identifier of the data set is. -/
theorem switch_selects_first_existing_child (s : AppState)
    (hids : ∀ child ∈ s.children, child.id ≠ "") :
    (∀ A c, fallbackTherapistFor s = some A →
        findFirstExistingChildId s.children A.childIds = some c →
        (step (.roleSelect .therapist) s).selectedChildId = c) ∧
    (∀ A c, fallbackParentFor s = some A →
        findFirstExistingChildId s.children A.childIds = some c →
        (step (.roleSelect .parent) s).selectedChildId = c) ∧
    (∀ A c, fallbackDonorFor s = some A →
        findFirstExistingChildId s.children A.childIds = some c →
        (step (.roleSelect .donor) s).selectedChildId = c) ∧
    (∀ actorId A c, s.therapists.find? (fun profile => profile.id == actorId) = some A →
        findFirstExistingChildId s.children A.childIds = some c →
        (step (.therapistChange actorId) s).selectedChildId = c) ∧
    (∀ actorId A c, s.parents.find? (fun profile => profile.id == actorId) = some A →
        findFirstExistingChildId s.children A.childIds = some c →
        (step (.parentChange actorId) s).selectedChildId = c) ∧
    (∀ actorId A c, s.donors.find? (fun profile => profile.id == actorId) = some A →
        findFirstExistingChildId s.children A.childIds = some c →
        (step (.donorChange actorId) s).selectedChildId = c) := by
  refine ⟨?_, ?_, ?_, ?_, ?_, ?_⟩
  · intro A c hA hfind
    show (handleRoleSelect s .therapist).selectedChildId = c
    unfold handleRoleSelect
    dsimp only
    rw [show fallbackTherapistFor { s with selectedRole := RoleKey.therapist } = some A
      from hA]
    dsimp only
    rw [show findFirstExistingChildId s.children A.childIds = some c from hfind]
    exact ensureChildSelection_of_found s.children c
      (findFirstExisting_any s.children A.childIds c hfind) hids
  · intro A c hA hfind
    show (handleRoleSelect s .parent).selectedChildId = c
    unfold handleRoleSelect
    dsimp only
    rw [show fallbackParentFor { s with selectedRole := RoleKey.parent } = some A
      from hA]
    dsimp only
    rw [show findFirstExistingChildId s.children A.childIds = some c from hfind]
    exact ensureChildSelection_of_found s.children c
      (findFirstExisting_any s.children A.childIds c hfind) hids
  · intro A c hA hfind
    show (handleRoleSelect s .donor).selectedChildId = c
    unfold handleRoleSelect
    dsimp only
    rw [show fallbackDonorFor { s with selectedRole := RoleKey.donor } = some A
      from hA]
    dsimp only
    rw [show findFirstExistingChildId s.children A.childIds = some c from hfind]
    exact ensureChildSelection_of_found s.children c
      (findFirstExisting_any s.children A.childIds c hfind) hids
  · intro actorId A c hA hfind
    show (handleTherapistChange s actorId).selectedChildId = c
    unfold handleTherapistChange
    dsimp only
    rw [show List.find? (fun profile => profile.id == actorId)
      ({ s with selectedTherapistId := actorId } : AppState).therapists = some A from hA]
    dsimp only
    rw [show findFirstExistingChildId s.children A.childIds = some c from hfind]
    exact ensureChildSelection_of_found s.children c
      (findFirstExisting_any s.children A.childIds c hfind) hids
  · intro actorId A c hA hfind
    show (handleParentChange s actorId).selectedChildId = c
    unfold handleParentChange
    dsimp only
    rw [show List.find? (fun profile => profile.id == actorId)
      ({ s with selectedParentId := actorId } : AppState).parents = some A from hA]
    dsimp only
    rw [show findFirstExistingChildId s.children A.childIds = some c from hfind]
    exact ensureChildSelection_of_found s.children c
      (findFirstExisting_any s.children A.childIds c hfind) hids
  · intro actorId A c hA hfind
    show (handleDonorChange s actorId).selectedChildId = c
    unfold handleDonorChange
    dsimp only
    rw [show List.find? (fun profile => profile.id == actorId)
      ({ s with selectedDonorId := actorId } : AppState).donors = some A from hA]
    dsimp only
    rw [show findFirstExistingChildId s.children A.childIds = some c from hfind]
    exact ensureChildSelection_of_found s.children c
      (findFirstExisting_any s.children A.childIds c hfind) hids

/-- Witness for C7: the scenario of the claim — switching the role to parent
while the active parent lists children `[c2, c5]` and the roster lacks `c2`
resolves the active child to `c5`. -/
theorem switch_selects_first_existing_child_witness :
    (∀ child ∈ baseState.children, child.id ≠ "") ∧
    (step (.roleSelect .parent) baseState).selectedChildId = "c5" := by
  have h := switch_selects_first_existing_child baseState (by decide)
  exact ⟨by decide, h.2.1 parent1 "c5" (by decide) (by decide)⟩

/-- C8: a blank required text field — the focus of add-session, the message
of add-family-update — makes the operation a complete no-op: the returned
state is the input state itself, so neither the roster nor the family-update
mapping (nor anything else) changes, and no record is created. -/
theorem blank_required_field_noop (s : AppState) :
    (∀ input : SessionInput, ∀ newId : String, jsTrim input.focus = "" →
        step (.addSession input newId) s = s) ∧
    (∀ childId message newId : String, ∀ now : ℤ, jsTrim message = "" →
        step (.addFamilyUpdate childId message newId now) s = s) := by
  constructor
  · intro input newId h
    show handleAddSession s input newId = s
    unfold handleAddSession
    simp [h]
  · intro childId message newId now h
    show handleAddFamilyUpdate s childId message newId now = s
    unfold handleAddFamilyUpdate
    simp [h]

/-- Session payload whose focus is blank after trimming. -/
def inputBlankFocus : SessionInput :=
  { childId := "c5", focus := "   ", notes := "some notes", rating := 3, date := 5,
    goalIds := ["g1"], therapistId := "t1" }

/-- Witness for C8 at `baseState`, a whitespace focus and a whitespace
message. -/
theorem blank_required_field_noop_witness :
    (jsTrim inputBlankFocus.focus = "" ∧
      step (.addSession inputBlankFocus "sx") baseState = baseState) ∧
    (jsTrim "  " = "" ∧
      step (.addFamilyUpdate "c5" "  " "ux" 7) baseState = baseState) :=
  ⟨⟨by decide,
      (blank_required_field_noop baseState).1 inputBlankFocus "sx" (by decide)⟩,
    ⟨by decide,
      (blank_required_field_noop baseState).2 "c5" "  " "ux" 7 (by decide)⟩⟩

/-- C9: the sessions-this-week metric counts, child by child across the whole
roster, exactly the sessions dated at or after `now - 7 days`: the lower
boundary (a session dated exactly seven days ago) is included, and there is
no upper bound — any session dated after `now` satisfies the predicate and is
counted, not excluded. -/
theorem thisWeekSessions_spec (children : List ChildProfile) (now : ℤ) :
    thisWeekSessions children now =
      (children.map (fun child =>
        child.sessionHistory.countP
          (fun session => decide (now - 7 * msPerDay ≤ session.date)))).sum ∧
    (∀ session : TherapySession, session.date = now - 7 * msPerDay →
      decide (now - 7 * msPerDay ≤ session.date) = true) ∧
    (∀ session : TherapySession, now < session.date →
      decide (now - 7 * msPerDay ≤ session.date) = true) := by
  refine ⟨?_, ?_, ?_⟩
  · unfold thisWeekSessions
    induction children with
    | nil => rfl
    | cons c cs ih =>
        simp only [List.flatMap_cons, List.filter_append, List.length_append,
          List.map_cons, List.sum_cons, List.countP_eq_length_filter] at ih ⊢
        omega
  · intro session h
    simp [h]
  · intro session h
    have : now - 7 * msPerDay ≤ session.date := by
      unfold msPerDay
      omega
    simpa using this

/-- A session dated in the future relative to instant 0. -/
def sessionFuture : TherapySession :=
  { id := "sf", date := 1000000, focus := "future session", goalsWorkedOn := [],
    rating := 3, notes := "scheduled ahead", therapistId := "t1" }

/-- Witness for C9: a future-dated session still satisfies the counting
predicate at evaluation instant 0. -/
theorem thisWeekSessions_spec_witness :
    (0 : ℤ) < sessionFuture.date ∧
    decide ((0 : ℤ) - 7 * msPerDay ≤ sessionFuture.date) = true :=
  ⟨by decide, (thisWeekSessions_spec [] 0).2.2 sessionFuture (by decide)⟩

theorem map_eq_self_of {α : Type} (f : α → α) :
    ∀ l : List α, (∀ x ∈ l, f x = x) → l.map f = l := by
  intro l
  induction l with
  | nil => intro _; rfl
  | cons a t ih =>
      intro h
      simp [h a (by simp), ih (fun x hx => h x (by simp [hx]))]

/-- C10: calling `handleAddSession` with a non-blank focus but a child id
matching no child of the roster returns the state unchanged — the roster
(goals, histories, upcoming sessions of every child) is identical and the
built session record is silently dropped, with no error raised. -/
theorem addSession_unknown_child_noop (s : AppState) (input : SessionInput)
    (newId : String) (hfocus : jsTrim input.focus ≠ "")
    (hchild : ∀ child ∈ s.children, child.id ≠ input.childId) :
    step (.addSession input newId) s = s := by
  show handleAddSession s input newId = s
  have hguard : (jsTrim input.focus == "") = false := beq_eq_false_iff_ne.mpr hfocus
  obtain ⟨cs, role, tId, pId, dId, cId, fu, ths, ps, ds⟩ := s
  unfold handleAddSession
  rw [hguard]
  simp only [Bool.false_eq_true, if_false]
  congr 1
  apply map_eq_self_of
  intro child hc
  have hbne : (child.id != input.childId) = true := bne_iff_ne.mpr (hchild child hc)
  simp only [hbne, if_true]

/-- Session payload addressed to a child id absent from `baseState`. -/
def inputUnknownChild : SessionInput :=
  { childId := "zz", focus := "Group play", notes := "", rating := 2, date := 3,
    goalIds := ["g1"], therapistId := "t1" }

/-- Witness for C10 at `baseState` and a payload naming the unknown child
`zz`. -/
theorem addSession_unknown_child_noop_witness :
    (jsTrim inputUnknownChild.focus ≠ "" ∧
      ∀ child ∈ baseState.children, child.id ≠ inputUnknownChild.childId) ∧
    step (.addSession inputUnknownChild "su") baseState = baseState :=
  ⟨⟨by decide, by decide⟩,
    addSession_unknown_child_noop baseState inputUnknownChild "su" (by decide)
      (by decide)⟩

end ThriveCare
